import Mathlib

/-!
# Verification of the spawnbot IRC↔Discord bridge core

Shallow embedding of the spawnbot repository (Go) in Lean 4:

* `cmdhandler` — the command registry / dispatcher.  Its implementation
  file (`lib.go`) is not present in the repository snapshot, only its
  tests (`cmdhandler/lib_test.go`); the dispatcher is therefore modelled
  from the specification's §4.2 algorithm and cross-checked against the
  behaviours asserted by the tests.
* `spawnbot.go` — the relay handlers (`registerIRCHandlers`,
  `registerDiscordHandlers`), the IRC connection loop (`runIRCClient`)
  and the startup path of `main`.
* `config.go` — `LoadConfig`.

Go string primitives used by the code (`strings.HasPrefix`,
`strings.CutPrefix`, `strings.Fields`, `strings.TrimSpace`,
`strconv.Atoi`, `snowflake.Parse`) are embedded as executable functions
on `List Char` / `String`.
-/

namespace Spawnbot

/-! ## Go string primitives -/

/-- Go `unicode.IsSpace` restricted to the ASCII whitespace characters
that matter for chat lines (space, tab, newline, carriage return,
vertical tab, form feed). -/
def isSpaceChar (c : Char) : Bool :=
  c = ' ' || c = '\t' || c = '\n' || c = '\x0d' || c = '\x0b' || c = '\x0c'

/-- Go `strings.HasPrefix s pre`. -/
def goHasPrefix (s pre : String) : Bool :=
  pre.data.isPrefixOf s.data

/-- Go `strings.CutPrefix s pre`: the string after the prefix and whether
the prefix was present (`s` unchanged when it was not). -/
def goCutPrefix (s pre : String) : String × Bool :=
  if goHasPrefix s pre then (⟨s.data.drop pre.data.length⟩, true) else (s, false)

/-- Go `strings.TrimSpace` (over the ASCII whitespace of `isSpaceChar`). -/
def goTrimSpace (s : String) : String :=
  ⟨(((s.data.dropWhile isSpaceChar).reverse.dropWhile isSpaceChar).reverse)⟩

/-- Accumulator-style core of Go `strings.Fields`: split around runs of
whitespace, never producing empty fields. `acc` holds the current field
reversed. -/
def fieldsAux : List Char → List Char → List String
  | [], acc => if acc.isEmpty then [] else [⟨acc.reverse⟩]
  | c :: cs, acc =>
    if isSpaceChar c then
      if acc.isEmpty then fieldsAux cs [] else (⟨acc.reverse⟩ : String) :: fieldsAux cs []
    else fieldsAux cs (c :: acc)

/-- Go `strings.Fields`. -/
def goFields (s : String) : List String :=
  fieldsAux s.data []

/-- Value of a decimal numeral read left to right with accumulator;
`none` if any character is not an ASCII digit. -/
def decValueAux : List Char → Nat → Option Nat
  | [], acc => some acc
  | c :: cs, acc =>
    if c.isDigit then decValueAux cs (acc * 10 + (c.toNat - '0'.toNat))
    else none

/-- Go `strconv.Atoi`: optional sign followed by at least one digit,
with the value required to fit in `int64` — `strconv.Atoi` reports
`ErrRange` (a non-nil error) outside `[-2^63, 2^63 - 1]`. -/
def goAtoi (s : String) : Option Int :=
  match s.data with
  | [] => none
  | '+' :: cs =>
    if cs.isEmpty then none
    else
      match decValueAux cs 0 with
      | some n => if n ≤ 2 ^ 63 - 1 then some (Int.ofNat n) else none
      | none => none
  | '-' :: cs =>
    if cs.isEmpty then none
    else
      match decValueAux cs 0 with
      | some n => if n ≤ 2 ^ 63 then some (-(n : Int)) else none
      | none => none
  | cs =>
    match decValueAux cs 0 with
    | some n => if n ≤ 2 ^ 63 - 1 then some (Int.ofNat n) else none
    | none => none

/-- `snowflake.Parse` (disgoorg/snowflake): `strconv.ParseUint(s, 10, 64)`
— a non-empty string of decimal digits whose value fits in 64 bits. -/
def parseSnowflake (s : String) : Option Nat :=
  match s.data with
  | [] => none
  | cs =>
    match decValueAux cs 0 with
    | some n => if n < 2 ^ 64 then some n else none
    | none => none

/-! ## girc events -/

/-- The slice of a `girc.Event` the handlers read: `Params` (for a
`PRIVMSG`, `Params[0]` is the target and the last param the message
text) and `Source.Name` / `Source.Host`. -/
structure IRCEvent where
  params : List String
  sourceName : String
  sourceHost : String
  deriving Repr, DecidableEq

/-- `girc.Event.Last()`: the last parameter, `""` when there is none. -/
def IRCEvent.last (e : IRCEvent) : String :=
  e.params.getLastD ""

/-! ## cmdhandler data model -/

/-- `cmdhandler.Command` metadata (the handler function `Fn` is not a
datum here; its invocation is recorded in `DispatchResult.executed`). -/
structure Command where
  name : String
  help : String
  helpArgs : String
  minArgs : Nat
  deriving Repr, DecidableEq

/-- `cmdhandler.CmdHandler`: the configured prefix plus the registry of
commands, looked up by exact name. -/
structure CmdHandler where
  pfx : String
  cmds : List Command
  deriving Repr

/-- `cmdhandler.Input`: the per-dispatch value handed to a command's
handler. -/
structure Input where
  sourceName : String
  sourceHost : String
  args : List String
  origin : IRCEvent
  deriving Repr, DecidableEq

/-- Observable outcome of one `CmdHandler.Execute` call. -/
inductive DispatchResult where
  /-- No registered command matched: no handler call, no reply. -/
  | notACommand
  /-- Too few arguments: the usage reply `text` is sent via
  `c.Cmd.Reply(origin, text)` and no handler runs. -/
  | usageReply (origin : IRCEvent) (text : String)
  /-- The named command's handler is invoked once with `input`. -/
  | executed (cmdName : String) (input : Input)
  deriving Repr, DecidableEq

/-- Registry lookup by exact command name. -/
def lookupCmd (cmds : List Command) (name : String) : Option Command :=
  cmds.find? (fun c => c.name = name)

/-- Modelled from the spec: `cmdhandler.CmdHandler.Execute` — the file
`cmdhandler/lib.go` is absent from the repository snapshot (only
`lib_test.go` is present), so the dispatcher follows §4.2 of the
specification: (1) a trimmed line not starting with the prefix is not a
command; (2) strip the prefix and split into whitespace-delimited
tokens, token 0 being the command name; (3) an unknown name (or an
empty token list) is silently ignored; (4) with fewer args than
`MinArgs`, reply `"Usage: {prefix}{name} {help_args}"` to the origin
and do not execute; (5) otherwise invoke the handler once with
`Input{source, args, origin}`. -/
def CmdHandler.execute (h : CmdHandler) (e : IRCEvent) : DispatchResult :=
  let line := goTrimSpace e.last
  if goHasPrefix line h.pfx then
    match goFields (goCutPrefix line h.pfx).1 with
    | [] => .notACommand
    | name :: args =>
      match lookupCmd h.cmds name with
      | none => .notACommand
      | some cmd =>
        if args.length < cmd.minArgs then
          .usageReply e ("Usage: " ++ h.pfx ++ cmd.name ++ " " ++ cmd.helpArgs)
        else
          .executed cmd.name ⟨e.sourceName, e.sourceHost, args, e⟩
  else .notACommand

/-! ## Application configuration (`config.go`) -/

/-- `AppConfig` from `config.go`. -/
structure AppConfig where
  ircServer : String
  ircPort : Int
  ircNick : String
  ircUser : String
  ircName : String
  qnetAuthPass : String
  discordToken : String
  bridgeDiscordChannelID : String
  bridgeIRCChannel : String
  deriving Repr, DecidableEq

/-- The distinct error returns of `LoadConfig` (each a distinct
`fmt.Errorf` in `config.go`). -/
inductive ConfigError where
  | missingIRCServer
  | invalidIRCPort
  | missingQNetAuth
  | missingDiscordToken
  | missingDiscordChannelID
  | missingIRCChannel
  deriving Repr, DecidableEq

/-- `LoadConfig` from `config.go`.  The environment is a total map from
variable name to value, with `""` meaning unset (the value
`os.Getenv` returns for an unset variable). -/
def LoadConfig (env : String → String) : Except ConfigError AppConfig :=
  if env "SPAWNBOT_IRC_SERVER" = "" then .error .missingIRCServer
  else
    match
      (if env "SPAWNBOT_IRC_PORT" = "" then some (6667 : Int)
       else goAtoi (env "SPAWNBOT_IRC_PORT")) with
    | none => .error .invalidIRCPort
    | some port =>
      let nick := if env "SPAWNBOT_IRC_NICK" = "" then "SpawnBot" else env "SPAWNBOT_IRC_NICK"
      let user := if env "SPAWNBOT_IRC_USER" = "" then "spawnbot" else env "SPAWNBOT_IRC_USER"
      let name := if env "SPAWNBOT_IRC_NAME" = "" then "SpawnBot Go IRC Bot" else env "SPAWNBOT_IRC_NAME"
      let qnet := if env "SPAWNBOT_QNET_AUTH" = "" then env "QNET_AUTH" else env "SPAWNBOT_QNET_AUTH"
      if qnet = "" then .error .missingQNetAuth
      else
        let token :=
          if env "SPAWNBOT_DISCORD_TOKEN" = "" then env "SPAWNBOT_TOKEN"
          else env "SPAWNBOT_DISCORD_TOKEN"
        if token = "" then .error .missingDiscordToken
        else if env "SPAWNBOT_DISCORD_CHANNEL_ID" = "" then .error .missingDiscordChannelID
        else if env "SPAWNBOT_IRC_CHANNEL" = "" then .error .missingIRCChannel
        else .ok
          { ircServer := env "SPAWNBOT_IRC_SERVER"
            ircPort := port
            ircNick := nick
            ircUser := user
            ircName := name
            qnetAuthPass := qnet
            discordToken := token
            bridgeDiscordChannelID := env "SPAWNBOT_DISCORD_CHANNEL_ID"
            bridgeIRCChannel := env "SPAWNBOT_IRC_CHANNEL" }

/-- What `main` does with the result of `LoadConfig`: on error it logs
and calls `os.Exit(1)` — before any client is created or any network
connection attempted; on success it proceeds to client creation,
handler registration and the network connections. -/
inductive StartupResult where
  | exitConfigError (e : ConfigError)
  | networkStartup (cfg : AppConfig)
  deriving Repr, DecidableEq

/-- The configuration phase of `main` (`spawnbot.go`): everything up to
the first network activity. -/
def mainStartup (env : String → String) : StartupResult :=
  match LoadConfig env with
  | .error e => .exitConfigError e
  | .ok cfg => .networkStartup cfg

/-! ## Relay handlers (`registerIRCHandlers` / `registerDiscordHandlers`) -/

/-- Outcome of the relay part of the IRC `PRIVMSG` handler. -/
inductive IRCRelayResult where
  /-- The guard failed: wrong channel, the bot's own nick, or a
  prefix-matching line — nothing is sent. -/
  | notRelayed
  /-- The guard passed but `snowflake.Parse(cfg.BridgeDiscordChannelID)`
  failed: the error is logged and the handler returns. -/
  | configError
  /-- `CreateMessage(dest, text)` is issued against the Discord REST API. -/
  | relayed (dest : Nat) (text : String)
  deriving Repr, DecidableEq

/-- The relay logic of the `girc.PRIVMSG` handler in
`registerIRCHandlers`: relay iff the event has params, its target is the
bridge channel, the sender is not the bot's own nick and the text does
not start with the command prefix; then parse the Discord channel ID
and send `"[IRC] user: content"`. -/
def ircRelay (cfg : AppConfig) (pfx : String) (e : IRCEvent) : IRCRelayResult :=
  if 0 < e.params.length ∧ e.params.headD "" = cfg.bridgeIRCChannel ∧
      e.sourceName ≠ cfg.ircNick ∧ ¬ goHasPrefix e.last pfx = true then
    match parseSnowflake cfg.bridgeDiscordChannelID with
    | none => .configError
    | some dest => .relayed dest ("[IRC] " ++ e.sourceName ++ ": " ++ e.last)
  else .notRelayed

/-- Joint observable behaviour of one `girc.PRIVMSG` callback
invocation in `registerIRCHandlers`: the command dispatch (always run
first) and the relay decision. -/
structure IRCHandlerResult where
  dispatch : DispatchResult
  relay : IRCRelayResult
  deriving Repr, DecidableEq

/-- The `girc.PRIVMSG` handler of `registerIRCHandlers`:
`cmdHandler.Execute(c, e)` first, then the relay logic (which uses
`cmdHandler.Prefix` as the suppression prefix). -/
def ircPrivmsgHandler (cfg : AppConfig) (h : CmdHandler) (e : IRCEvent) : IRCHandlerResult :=
  { dispatch := h.execute e, relay := ircRelay cfg h.pfx e }

/-- The slice of a disgo `events.MessageCreate` the handler reads. -/
structure DiscordMessage where
  authorBot : Bool
  authorUsername : String
  channelID : Nat
  content : String
  deriving Repr, DecidableEq

/-- Observable outcome of one Discord `MessageCreate` callback
invocation in `registerDiscordHandlers`. -/
inductive DiscordEffect where
  /-- `event.Message.Author.Bot` — the handler returns at once. -/
  | ignoredBot
  /-- `snowflake.Parse(cfg.BridgeDiscordChannelID)` failed: logged,
  handler returns before the die-command check and the relay. -/
  | configError
  /-- The message is not on the bridge channel: nothing happens. -/
  | ignoredChannel
  /-- The `!die` command: `cancel()` is called (shutdown signal). -/
  | shutdown
  /-- Prefixed content other than `!die`: neither relayed nor executed. -/
  | droppedCommand
  /-- `ircClient.Cmd.Message(channel, text)` is issued. -/
  | relayedToIRC (channel : String) (text : String)
  deriving Repr, DecidableEq

/-- The `MessageCreate` listener of `registerDiscordHandlers`: skip bot
authors; parse the bridge channel ID (returning on error); on the
bridge channel, content starting with `"!"` either triggers shutdown
(when the unprefixed remainder is exactly `"die"`) or is dropped;
unprefixed content is relayed to IRC as `"[DISCORD] author: content"`. -/
def discordHandler (cfg : AppConfig) (m : DiscordMessage) : DiscordEffect :=
  if m.authorBot then .ignoredBot
  else
    match parseSnowflake cfg.bridgeDiscordChannelID with
    | none => .configError
    | some sid =>
      if m.channelID = sid then
        if goHasPrefix m.content "!" then
          if (goCutPrefix m.content "!").1 = "die" then .shutdown
          else .droppedCommand
        else
          .relayedToIRC cfg.bridgeIRCChannel
            ("[DISCORD] " ++ m.authorUsername ++ ": " ++ m.content)
      else .ignoredChannel

/-! ## IRC connection loop (`runIRCClient`) -/

/-- What one blocking `ircClient.Connect()` call reported when it
returned. -/
inductive ConnectOutcome where
  /-- `Connect` returned a non-nil error. -/
  | connErr
  /-- `Connect` returned nil: a clean disconnect (e.g. after `Quit`). -/
  | cleanDisc
  deriving Repr, DecidableEq

/-- Externally visible events of the connection loop. -/
inductive RunEvent where
  /-- An `ircClient.Connect()` call was made. -/
  | attempt
  /-- An uninterrupted `time.After` wait of `secs` seconds completed. -/
  | wait (secs : Nat)
  deriving Repr, DecidableEq

/-- The context's state at checkpoint `k`: `ctx.Done()` is closed
(equivalently `ctx.Err() ≠ nil`) iff the cancellation happened at some
checkpoint `c ≤ k`.  `none` means the context is never cancelled.
Checkpoints count, in program order, the points where `runIRCClient`
consults the context: the top-of-loop `select`, the post-`Connect`
check, and the wait `select`. -/
def ctxDone (cancelAt : Option Nat) (k : Nat) : Bool :=
  match cancelAt with
  | none => false
  | some c => c ≤ k

/-- `runIRCClient` from `spawnbot.go`, driven by the (finite, fuel-like)
list of outcomes the successive `Connect()` calls would report and by
the cancellation point.  Checkpoint `k` is the top-of-loop `select`;
`k+1` the check right after `Connect` returns; `k+2` the
`time.After`-vs-`ctx.Done()` wait.  Returns the trace of connection
attempts and completed waits. -/
def runIRCClient (cancelAt : Option Nat) (outcomes : List ConnectOutcome) (k : Nat) :
    List RunEvent :=
  match outcomes with
  | [] => []
  | o :: rest =>
    if ctxDone cancelAt k then []
    else
      match o with
      | .connErr =>
        if ctxDone cancelAt (k + 1) then [.attempt]
        else if ctxDone cancelAt (k + 2) then [.attempt]
        else .attempt :: .wait 30 :: runIRCClient cancelAt rest (k + 3)
      | .cleanDisc =>
        if ctxDone cancelAt (k + 1) then .attempt :: runIRCClient cancelAt rest (k + 2)
        else if ctxDone cancelAt (k + 2) then [.attempt]
        else .attempt :: .wait 5 :: runIRCClient cancelAt rest (k + 3)

/-! ## Shared sample data -/

/-- A well-formed configuration used as a concrete instance in witnesses. -/
def sampleCfg : AppConfig :=
  { ircServer := "irc.quakenet.org"
    ircPort := 6667
    ircNick := "SpawnBot"
    ircUser := "spawnbot"
    ircName := "SpawnBot Go IRC Bot"
    qnetAuthPass := "secret"
    discordToken := "token"
    bridgeDiscordChannelID := "482513037530497025"
    bridgeIRCChannel := "#spawn" }

/-- The `testcmd` command of `lib_test.go` (`MinArgs: 1`,
`HelpArgs: "<arg1>"`). -/
def testcmdCmd : Command :=
  { name := "testcmd", help := "Test command with MinArgs.", helpArgs := "<arg1>", minArgs := 1 }

/-- A handler with prefix `"!"` holding only `testcmd`. -/
def testHandler : CmdHandler := ⟨"!", [testcmdCmd]⟩

/-! ## Dispatcher theorems (C1–C3) -/

/-- C1: for every registered command and every dispatched input whose
argument count is strictly less than the command's `MinArgs`, the
dispatcher does not invoke the handler and issues exactly one reply
`"Usage: {prefix}{name} {help_args}"` addressed back to the originating
event. -/
theorem dispatch_min_args_usage (h : CmdHandler) (e : IRCEvent)
    (name : String) (args : List String) (cmd : Command)
    (hpre : goHasPrefix (goTrimSpace e.last) h.pfx = true)
    (htok : goFields (goCutPrefix (goTrimSpace e.last) h.pfx).1 = name :: args)
    (hlook : lookupCmd h.cmds name = some cmd)
    (hlt : args.length < cmd.minArgs) :
    h.execute e = .usageReply e ("Usage: " ++ h.pfx ++ cmd.name ++ " " ++ cmd.helpArgs) ∧
    ∀ cn inp, h.execute e ≠ .executed cn inp := by
  have hres : h.execute e =
      .usageReply e ("Usage: " ++ h.pfx ++ cmd.name ++ " " ++ cmd.helpArgs) := by
    unfold CmdHandler.execute
    simp [hpre, htok, hlook, hlt]
  exact ⟨hres, fun cn inp hcon => by rw [hres] at hcon; exact DispatchResult.noConfusion hcon⟩

/-- Witness for C1: `"!testcmd"` against `testcmd` (`MinArgs = 1`)
yields the reply `"Usage: !testcmd <arg1>"` to the originating event and
no execution. -/
theorem dispatch_min_args_usage_witness :
    testHandler.execute ⟨["#testchannel", "!testcmd"], "testuser", "testhost"⟩ =
      .usageReply ⟨["#testchannel", "!testcmd"], "testuser", "testhost"⟩
        "Usage: !testcmd <arg1>" ∧
    ∀ cn inp,
      testHandler.execute ⟨["#testchannel", "!testcmd"], "testuser", "testhost"⟩ ≠
        .executed cn inp :=
  dispatch_min_args_usage testHandler ⟨["#testchannel", "!testcmd"], "testuser", "testhost"⟩
    "testcmd" [] testcmdCmd (by decide) (by decide) (by decide) (by decide)

/-- C2: for every registered command and every dispatched input whose
argument count is at least the command's `MinArgs`, the dispatcher
invokes the command's handler exactly once with the whitespace-delimited
tokens after the command name as `Input.args`, and issues no usage
reply. -/
theorem dispatch_enough_args_executes (h : CmdHandler) (e : IRCEvent)
    (name : String) (args : List String) (cmd : Command)
    (hpre : goHasPrefix (goTrimSpace e.last) h.pfx = true)
    (htok : goFields (goCutPrefix (goTrimSpace e.last) h.pfx).1 = name :: args)
    (hlook : lookupCmd h.cmds name = some cmd)
    (hge : cmd.minArgs ≤ args.length) :
    h.execute e = .executed cmd.name ⟨e.sourceName, e.sourceHost, args, e⟩ ∧
    ∀ o t, h.execute e ≠ .usageReply o t := by
  have hres : h.execute e = .executed cmd.name ⟨e.sourceName, e.sourceHost, args, e⟩ := by
    unfold CmdHandler.execute
    simp [hpre, htok, hlook, Nat.not_lt.mpr hge]
  exact ⟨hres, fun o t hcon => by rw [hres] at hcon; exact DispatchResult.noConfusion hcon⟩

/-- Witness for C2: `"!testcmd arg1"` executes `testcmd` with
`Input.args = ["arg1"]` and no usage reply. -/
theorem dispatch_enough_args_executes_witness :
    testHandler.execute ⟨["#testchannel", "!testcmd arg1"], "testuser", "testhost"⟩ =
      .executed "testcmd"
        ⟨"testuser", "testhost", ["arg1"],
          ⟨["#testchannel", "!testcmd arg1"], "testuser", "testhost"⟩⟩ ∧
    ∀ o t,
      testHandler.execute ⟨["#testchannel", "!testcmd arg1"], "testuser", "testhost"⟩ ≠
        .usageReply o t :=
  dispatch_enough_args_executes testHandler
    ⟨["#testchannel", "!testcmd arg1"], "testuser", "testhost"⟩
    "testcmd" ["arg1"] testcmdCmd (by decide) (by decide) (by decide) (by decide)

/-- C3: a line that does not start with the prefix, or that yields zero
tokens after prefix stripping, or whose first token matches no
registered command, dispatches to `notACommand`: no handler runs and no
reply is sent. -/
theorem dispatch_no_match_noop (h : CmdHandler) (e : IRCEvent) :
    (goHasPrefix (goTrimSpace e.last) h.pfx = false → h.execute e = .notACommand) ∧
    (goFields (goCutPrefix (goTrimSpace e.last) h.pfx).1 = [] →
      h.execute e = .notACommand) ∧
    (∀ name args, goFields (goCutPrefix (goTrimSpace e.last) h.pfx).1 = name :: args →
      lookupCmd h.cmds name = none → h.execute e = .notACommand) := by
  refine ⟨fun hpre => ?_, fun htok => ?_, fun name args htok hlook => ?_⟩
  · unfold CmdHandler.execute
    simp [hpre]
  · unfold CmdHandler.execute
    by_cases hpre : goHasPrefix (goTrimSpace e.last) h.pfx = true <;> simp [hpre, htok]
  · unfold CmdHandler.execute
    by_cases hpre : goHasPrefix (goTrimSpace e.last) h.pfx = true <;>
      simp [hpre, htok, hlook]

/-- Witness for C3: `"!nonexistent"` matches no registered command and
dispatches to `notACommand`; so does the bare prefix `"!"` (zero
tokens), and an unprefixed line. -/
theorem dispatch_no_match_noop_witness :
    testHandler.execute ⟨["#testchannel", "!nonexistent"], "testuser", "testhost"⟩ =
      .notACommand ∧
    testHandler.execute ⟨["#testchannel", "!"], "testuser", "testhost"⟩ = .notACommand ∧
    testHandler.execute ⟨["#testchannel", "hello there"], "testuser", "testhost"⟩ =
      .notACommand :=
  ⟨(dispatch_no_match_noop testHandler
      ⟨["#testchannel", "!nonexistent"], "testuser", "testhost"⟩).2.2
      "nonexistent" [] (by decide) (by decide),
   (dispatch_no_match_noop testHandler
      ⟨["#testchannel", "!"], "testuser", "testhost"⟩).2.1 (by decide),
   (dispatch_no_match_noop testHandler
      ⟨["#testchannel", "hello there"], "testuser", "testhost"⟩).1 (by decide)⟩

/-! ## Relay theorems (C4–C6) -/

/-- C4: a message whose content starts with the command prefix is never
forwarded to the other network — on the IRC side the relay guard
excludes prefixed lines outright, and on the Discord side prefixed
content either triggers shutdown or is dropped, never relayed —
regardless of whether the dispatcher resolved it to a registered
command. -/
theorem prefixed_message_never_relayed :
    (∀ cfg h e, goHasPrefix e.last h.pfx = true →
      (ircPrivmsgHandler cfg h e).relay = .notRelayed) ∧
    (∀ cfg m, goHasPrefix m.content "!" = true →
      ∀ ch t, discordHandler cfg m ≠ .relayedToIRC ch t) := by
  constructor
  · intro cfg h e hpre
    simp [ircPrivmsgHandler, ircRelay, hpre]
  · intro cfg m hpre ch t
    unfold discordHandler
    cases hb : m.authorBot
    · cases hps : parseSnowflake cfg.bridgeDiscordChannelID with
      | none => simp
      | some sid =>
        by_cases hc : m.channelID = sid
        · by_cases hd : (goCutPrefix m.content "!").1 = "die" <;>
            simp [hc, hpre, hd]
        · simp [hc]
    · simp

/-- Witness for C4: with the sample configuration, the IRC line
`"!ping"` on the bridge channel is not relayed, and the Discord message
`"!ping"` on the bridge channel is not relayed to IRC. -/
theorem prefixed_message_never_relayed_witness :
    (ircPrivmsgHandler sampleCfg testHandler
        ⟨["#spawn", "!ping"], "bob", "host"⟩).relay = .notRelayed ∧
    discordHandler sampleCfg ⟨false, "carol", 482513037530497025, "!ping"⟩ ≠
      .relayedToIRC "#spawn" "[DISCORD] carol: !ping" :=
  ⟨prefixed_message_never_relayed.1 sampleCfg testHandler
      ⟨["#spawn", "!ping"], "bob", "host"⟩ (by decide),
   prefixed_message_never_relayed.2 sampleCfg
      ⟨false, "carol", 482513037530497025, "!ping"⟩ (by decide)
      "#spawn" "[DISCORD] carol: !ping"⟩

/-- C5: a message authored by the bridge bot's own identity is never
relayed: a Discord message whose author carries the bot flag is ignored
outright, and an IRC message whose sender nick equals the configured
bridge nick is not forwarded to Discord. -/
theorem self_authored_never_relayed :
    (∀ cfg m, m.authorBot = true → discordHandler cfg m = .ignoredBot) ∧
    (∀ cfg h e, e.sourceName = cfg.ircNick →
      (ircPrivmsgHandler cfg h e).relay = .notRelayed) := by
  constructor
  · intro cfg m hb
    unfold discordHandler
    simp [hb]
  · intro cfg h e hn
    simp [ircPrivmsgHandler, ircRelay, hn]

/-- Witness for C5: a bot-flagged Discord message is ignored, and an
IRC message from nick `"SpawnBot"` (the configured bridge nick) is not
relayed. -/
theorem self_authored_never_relayed_witness :
    discordHandler sampleCfg ⟨true, "SpawnBot", 482513037530497025, "hello"⟩ =
      .ignoredBot ∧
    (ircPrivmsgHandler sampleCfg testHandler
        ⟨["#spawn", "hello"], "SpawnBot", "host"⟩).relay = .notRelayed :=
  ⟨self_authored_never_relayed.1 sampleCfg
      ⟨true, "SpawnBot", 482513037530497025, "hello"⟩ rfl,
   self_authored_never_relayed.2 sampleCfg testHandler
      ⟨["#spawn", "hello"], "SpawnBot", "host"⟩ rfl⟩

/-- C6: every relayed message is formatted exactly as
`"[ORIGIN] author: content"` with the content unmodified; in
particular IRC `"hello everyone"` from `bob` relays to Discord as
`"[IRC] bob: hello everyone"` and Discord `"hi"` from `carol` relays to
IRC as `"[DISCORD] carol: hi"`. -/
theorem relay_envelope_format :
    (∀ cfg px e d t, ircRelay cfg px e = .relayed d t →
      t = "[IRC] " ++ e.sourceName ++ ": " ++ e.last) ∧
    (∀ cfg m ch t, discordHandler cfg m = .relayedToIRC ch t →
      ch = cfg.bridgeIRCChannel ∧
      t = "[DISCORD] " ++ m.authorUsername ++ ": " ++ m.content) ∧
    ircRelay sampleCfg "!" ⟨["#spawn", "hello everyone"], "bob", "host"⟩ =
      .relayed 482513037530497025 "[IRC] bob: hello everyone" ∧
    discordHandler sampleCfg ⟨false, "carol", 482513037530497025, "hi"⟩ =
      .relayedToIRC "#spawn" "[DISCORD] carol: hi" := by
  refine ⟨?_, ?_, by decide, by decide⟩
  · intro cfg px e d t hrel
    unfold ircRelay at hrel
    split at hrel
    · cases hps : parseSnowflake cfg.bridgeDiscordChannelID <;> rw [hps] at hrel
      · exact absurd hrel (by simp)
      · simp only [IRCRelayResult.relayed.injEq] at hrel
        exact hrel.2.symm
    · exact absurd hrel (by simp)
  · intro cfg m ch t hrel
    unfold discordHandler at hrel
    cases hb : m.authorBot <;> rw [hb] at hrel <;> simp at hrel
    rcases hps : parseSnowflake cfg.bridgeDiscordChannelID with _ | sid <;> rw [hps] at hrel
    · exact absurd hrel (by simp)
    · by_cases hc : m.channelID = sid <;> simp [hc] at hrel
      by_cases hp : goHasPrefix m.content "!" <;> simp [hp] at hrel
      · by_cases hd : (goCutPrefix m.content "!").1 = "die" <;> simp [hd] at hrel
      · exact ⟨hrel.1.symm, hrel.2.symm⟩

/-- Witness for C6: the general envelope law instantiated at the IRC
scenario of the claim. -/
theorem relay_envelope_format_witness :
    ("[IRC] bob: hello everyone" : String) =
      "[IRC] " ++ "bob" ++ ": " ++ "hello everyone" :=
  relay_envelope_format.1 sampleCfg "!" ⟨["#spawn", "hello everyone"], "bob", "host"⟩
    482513037530497025 "[IRC] bob: hello everyone" relay_envelope_format.2.2.1

/-! ## Connection loop theorems (C7) -/

/-- Once the context has been cancelled at or before the current
checkpoint, the loop makes no further connection attempts, whatever the
remaining outcomes would have been. -/
theorem runIRCClient_cancelled (c k : Nat) (outs : List ConnectOutcome) (hck : c ≤ k) :
    runIRCClient (some c) outs k = [] := by
  cases outs with
  | nil => rfl
  | cons o rest => simp [runIRCClient, ctxDone, hck]

/-- C7: the connection loop waits a fixed 30 seconds after every failed
attempt and 5 seconds after a clean disconnect before retrying, and
terminates permanently — no further attempts — once the shutdown signal
has fired, whether that is observed before an attempt, during a backoff
wait, or right after a disconnect. -/
theorem irc_loop_backoff_and_shutdown :
    (∀ rest k, runIRCClient none (.connErr :: rest) k =
      .attempt :: .wait 30 :: runIRCClient none rest (k + 3)) ∧
    (∀ rest k, runIRCClient none (.cleanDisc :: rest) k =
      .attempt :: .wait 5 :: runIRCClient none rest (k + 3)) ∧
    (∀ c outs k, c ≤ k → runIRCClient (some c) outs k = []) ∧
    (∀ c rest k, k < c → c ≤ k + 2 →
      runIRCClient (some c) (.connErr :: rest) k = [.attempt]) ∧
    (∀ c rest k, k < c → c ≤ k + 2 →
      runIRCClient (some c) (.cleanDisc :: rest) k = [.attempt]) := by
  refine ⟨?_, ?_, fun c outs k hck => runIRCClient_cancelled c k outs hck, ?_, ?_⟩
  · intro rest k
    simp [runIRCClient, ctxDone]
  · intro rest k
    simp [runIRCClient, ctxDone]
  · intro c rest k h1 h2
    have hk : ctxDone (some c) k = false := by simp [ctxDone]; omega
    by_cases hc1 : c ≤ k + 1
    · simp [runIRCClient, hk, ctxDone, hc1, h1]
    · simp [runIRCClient, hk, ctxDone, hc1, h2, h1]
  · intro c rest k h1 h2
    have hk : ctxDone (some c) k = false := by simp [ctxDone]; omega
    by_cases hc1 : c ≤ k + 1
    · have hrec : runIRCClient (some c) rest (k + 2) = [] :=
        runIRCClient_cancelled c (k + 2) rest (by omega)
      simp [runIRCClient, hk, ctxDone, hc1, hrec, h1]
    · simp [runIRCClient, hk, ctxDone, hc1, h2, h1]

/-- Witness for C7: a failed attempt then a clean disconnect with no
cancellation yields attempt, 30-second wait, attempt, 5-second wait; a
context cancelled before the first checkpoint yields no attempt at all;
cancellation right after the attempt (or during the wait) in either
branch yields exactly the one attempt. -/
theorem irc_loop_backoff_and_shutdown_witness :
    runIRCClient none [.connErr, .cleanDisc] 0 =
      [.attempt, .wait 30, .attempt, .wait 5] ∧
    runIRCClient (some 0) [.connErr, .connErr] 0 = [] ∧
    runIRCClient (some 1) [.connErr] 0 = [.attempt] ∧
    runIRCClient (some 1) [.cleanDisc] 0 = [.attempt] := by
  refine ⟨?_,
    irc_loop_backoff_and_shutdown.2.2.1 0 [.connErr, .connErr] 0 (Nat.le_refl 0),
    irc_loop_backoff_and_shutdown.2.2.2.1 1 [] 0 (by decide) (by decide),
    irc_loop_backoff_and_shutdown.2.2.2.2 1 [] 0 (by decide) (by decide)⟩
  rw [irc_loop_backoff_and_shutdown.1, irc_loop_backoff_and_shutdown.2.1]
  rfl

/-! ## Discord die-command theorems (C9) -/

/-- For a string that does start with `"!"`, cutting the prefix yields
exactly `"die"` iff the string is exactly `"!die"`. -/
theorem goCutPrefix_bang_eq_die_iff (s : String) (h : goHasPrefix s "!" = true) :
    ((goCutPrefix s "!").1 = "die") ↔ s = "!die" := by
  cases s with
  | mk data =>
    cases data with
    | nil => exact absurd h (by decide)
    | cons c cs =>
      have h' : ('!' == c && List.isPrefixOf [] cs) = true := h
      have hc : c = '!' := by
        have := (Bool.and_eq_true _ _).mp h' |>.1
        exact (beq_iff_eq.mp this).symm
      subst hc
      have hcut : (goCutPrefix ⟨'!' :: cs⟩ "!").1 = ⟨cs⟩ := by
        simp [goCutPrefix, goHasPrefix, List.isPrefixOf]
      rw [hcut]
      constructor
      · intro hcs
        have hl : cs = ['d', 'i', 'e'] := congrArg String.data hcs
        rw [hl]
      · intro hs
        have hl : '!' :: cs = ['!', 'd', 'i', 'e'] := congrArg String.data hs
        have hcs : cs = ['d', 'i', 'e'] := by injection hl
        rw [hcs]

/-- C9: on the bridge channel, a non-bot Discord message triggers
shutdown iff its content is exactly `"!die"`; any other prefixed
content is dropped (neither relayed nor a shutdown), and the unprefixed
content `"die"` is relayed as an ordinary message. -/
theorem discord_shutdown_iff_exact_die (cfg : AppConfig) (m : DiscordMessage) (sid : Nat)
    (hbot : m.authorBot = false)
    (hparse : parseSnowflake cfg.bridgeDiscordChannelID = some sid)
    (hchan : m.channelID = sid) :
    (discordHandler cfg m = .shutdown ↔ m.content = "!die") ∧
    (goHasPrefix m.content "!" = true → m.content ≠ "!die" →
      discordHandler cfg m = .droppedCommand) ∧
    (m.content = "die" →
      discordHandler cfg m = .relayedToIRC cfg.bridgeIRCChannel
        ("[DISCORD] " ++ m.authorUsername ++ ": " ++ "die")) := by
  have hred : discordHandler cfg m =
      (if goHasPrefix m.content "!" then
        if (goCutPrefix m.content "!").1 = "die" then DiscordEffect.shutdown
        else .droppedCommand
      else .relayedToIRC cfg.bridgeIRCChannel
        ("[DISCORD] " ++ m.authorUsername ++ ": " ++ m.content)) := by
    unfold discordHandler
    rw [hbot, hparse]
    simp [hchan]
  refine ⟨⟨fun hsd => ?_, fun hdie => ?_⟩, fun hp hne => ?_, fun hd => ?_⟩
  · rw [hred] at hsd
    by_cases hp : goHasPrefix m.content "!" = true
    · rw [if_pos hp] at hsd
      by_cases hcut : (goCutPrefix m.content "!").1 = "die"
      · exact (goCutPrefix_bang_eq_die_iff m.content hp).mp hcut
      · rw [if_neg hcut] at hsd
        exact absurd hsd (by simp)
    · rw [if_neg hp] at hsd
      exact absurd hsd (by simp)
  · rw [hred]
    simp +decide [hdie]
  · rw [hred, if_pos hp,
      if_neg (fun hcut => hne ((goCutPrefix_bang_eq_die_iff m.content hp).mp hcut))]
  · rw [hred]
    simp +decide [hd]

/-- Witness for C9: on the sample bridge channel, `"!die"` shuts down,
`"!die now"` and `"!ping"` are dropped, and bare `"die"` is relayed as
an ordinary message. -/
theorem discord_shutdown_iff_exact_die_witness :
    discordHandler sampleCfg ⟨false, "carol", 482513037530497025, "!die"⟩ = .shutdown ∧
    discordHandler sampleCfg ⟨false, "carol", 482513037530497025, "!die now"⟩ =
      .droppedCommand ∧
    discordHandler sampleCfg ⟨false, "carol", 482513037530497025, "!ping"⟩ =
      .droppedCommand ∧
    discordHandler sampleCfg ⟨false, "carol", 482513037530497025, "die"⟩ =
      .relayedToIRC "#spawn" ("[DISCORD] " ++ "carol" ++ ": " ++ "die") :=
  ⟨(discord_shutdown_iff_exact_die sampleCfg ⟨false, "carol", 482513037530497025, "!die"⟩
      482513037530497025 rfl (by decide) rfl).1.mpr rfl,
   (discord_shutdown_iff_exact_die sampleCfg ⟨false, "carol", 482513037530497025, "!die now"⟩
      482513037530497025 rfl (by decide) rfl).2.1 (by decide) (by decide),
   (discord_shutdown_iff_exact_die sampleCfg ⟨false, "carol", 482513037530497025, "!ping"⟩
      482513037530497025 rfl (by decide) rfl).2.1 (by decide) (by decide),
   (discord_shutdown_iff_exact_die sampleCfg ⟨false, "carol", 482513037530497025, "die"⟩
      482513037530497025 rfl (by decide) rfl).2.2 rfl⟩

/-! ## Malformed channel-ID degradation (C10) -/

/-- C10: when the configured Discord channel ID does not parse as a
snowflake, both handlers still return on every input: the Discord
handler reports the parse error before any relay or die-command check
(in particular it never shuts down and never relays), and the IRC
handler still performs command dispatch but never relays. -/
theorem bad_channel_id_degrades_gracefully (cfg : AppConfig) (h : CmdHandler)
    (e : IRCEvent) (m : DiscordMessage)
    (hbad : parseSnowflake cfg.bridgeDiscordChannelID = none) :
    (m.authorBot = false → discordHandler cfg m = .configError) ∧
    (∀ ch t, discordHandler cfg m ≠ .relayedToIRC ch t) ∧
    discordHandler cfg m ≠ .shutdown ∧
    (ircPrivmsgHandler cfg h e).dispatch = h.execute e ∧
    ∀ d t, (ircPrivmsgHandler cfg h e).relay ≠ .relayed d t := by
  have hdis : discordHandler cfg m = .ignoredBot ∨ discordHandler cfg m = .configError := by
    unfold discordHandler
    cases m.authorBot <;> simp [hbad]
  have hirc : (ircPrivmsgHandler cfg h e).relay = .notRelayed ∨
      (ircPrivmsgHandler cfg h e).relay = .configError := by
    simp only [ircPrivmsgHandler]
    unfold ircRelay
    split
    · rw [hbad]
      right
      rfl
    · left
      rfl
  refine ⟨fun hb => ?_, fun ch t => ?_, ?_, rfl, fun d t => ?_⟩
  · unfold discordHandler
    simp [hb, hbad]
  · rcases hdis with hd | hd <;> simp [hd]
  · rcases hdis with hd | hd <;> simp [hd]
  · rcases hirc with hr | hr <;> simp [hr]

/-- Witness for C10: with channel ID `"notanumber"`, a plain Discord
message yields the config-error path and a plain IRC bridge-channel
message is dispatched but not relayed. -/
theorem bad_channel_id_degrades_gracefully_witness :
    discordHandler { sampleCfg with bridgeDiscordChannelID := "notanumber" }
      ⟨false, "carol", 482513037530497025, "hello"⟩ = .configError ∧
    (ircPrivmsgHandler { sampleCfg with bridgeDiscordChannelID := "notanumber" }
        testHandler ⟨["#spawn", "hello"], "bob", "host"⟩).dispatch =
      testHandler.execute ⟨["#spawn", "hello"], "bob", "host"⟩ ∧
    ∀ d t,
      (ircPrivmsgHandler { sampleCfg with bridgeDiscordChannelID := "notanumber" }
          testHandler ⟨["#spawn", "hello"], "bob", "host"⟩).relay ≠ .relayed d t :=
  ⟨(bad_channel_id_degrades_gracefully _ testHandler ⟨["#spawn", "hello"], "bob", "host"⟩
      ⟨false, "carol", 482513037530497025, "hello"⟩ (by decide)).1 rfl,
   (bad_channel_id_degrades_gracefully _ testHandler ⟨["#spawn", "hello"], "bob", "host"⟩
      ⟨false, "carol", 482513037530497025, "hello"⟩ (by decide)).2.2.2.1,
   (bad_channel_id_degrades_gracefully _ testHandler ⟨["#spawn", "hello"], "bob", "host"⟩
      ⟨false, "carol", 482513037530497025, "hello"⟩ (by decide)).2.2.2.2⟩

/-! ## Startup configuration theorems (C8) -/

/-- An environment with every required variable set and a syntactically
malformed (non-numeric) Discord channel ID. -/
def badChanEnv : String → String := fun v =>
  if v = "SPAWNBOT_IRC_SERVER" then "irc.quakenet.org"
  else if v = "SPAWNBOT_QNET_AUTH" then "secret"
  else if v = "SPAWNBOT_DISCORD_TOKEN" then "token"
  else if v = "SPAWNBOT_DISCORD_CHANNEL_ID" then "notanumber"
  else if v = "SPAWNBOT_IRC_CHANNEL" then "#spawn"
  else ""

/-- Counterexample to C8: a malformed (unparseable) Discord channel ID
is not fatal at startup — `LoadConfig` only checks that the variable is
non-empty, so `main` proceeds to client creation and the network
connections with the unparseable ID in the configuration. -/
theorem malformed_channel_id_not_fatal_at_startup :
    parseSnowflake (badChanEnv "SPAWNBOT_DISCORD_CHANNEL_ID") = none ∧
    mainStartup badChanEnv = .networkStartup
      { ircServer := "irc.quakenet.org", ircPort := 6667, ircNick := "SpawnBot",
        ircUser := "spawnbot", ircName := "SpawnBot Go IRC Bot", qnetAuthPass := "secret",
        discordToken := "token", bridgeDiscordChannelID := "notanumber",
        bridgeIRCChannel := "#spawn" } := by
  decide

/-- A Go-style "first variable, falling back to the second" value is
non-empty when at least one of the two variables is non-empty. -/
theorem ifEmpty_fallback_ne (a b : String) (h : a ≠ "" ∨ b ≠ "") :
    (if a = "" then b else a) ≠ "" := by
  by_cases h0 : a = ""
  · rw [if_pos h0]
    rcases h with h | h
    · exact absurd h0 h
    · exact h
  · rw [if_neg h0]
    exact h0

/-- When the port variable is unset or parses, `LoadConfig`'s port
determination yields some value (the default 6667 when unset). -/
theorem port_determined (env : String → String)
    (hpok : env "SPAWNBOT_IRC_PORT" = "" ∨ goAtoi (env "SPAWNBOT_IRC_PORT") ≠ none) :
    ∃ p : Int, (if env "SPAWNBOT_IRC_PORT" = "" then some (6667 : Int)
      else goAtoi (env "SPAWNBOT_IRC_PORT")) = some p := by
  by_cases h0 : env "SPAWNBOT_IRC_PORT" = ""
  · exact ⟨6667, by rw [if_pos h0]⟩
  · rcases hpok with h | h
    · exact absurd h h0
    · rcases Option.ne_none_iff_exists'.mp h with ⟨p, hp⟩
      exact ⟨p, by rw [if_neg h0]; exact hp⟩

/-- Once the server variable is present and the port determined,
`LoadConfig` reduces to the checks on the remaining variables. -/
theorem LoadConfig_after_port (env : String → String) (p : Int)
    (hs : env "SPAWNBOT_IRC_SERVER" ≠ "")
    (hp : (if env "SPAWNBOT_IRC_PORT" = "" then some (6667 : Int)
      else goAtoi (env "SPAWNBOT_IRC_PORT")) = some p) :
    LoadConfig env =
      (if (if env "SPAWNBOT_QNET_AUTH" = "" then env "QNET_AUTH"
          else env "SPAWNBOT_QNET_AUTH") = "" then .error .missingQNetAuth
       else if (if env "SPAWNBOT_DISCORD_TOKEN" = "" then env "SPAWNBOT_TOKEN"
          else env "SPAWNBOT_DISCORD_TOKEN") = "" then .error .missingDiscordToken
       else if env "SPAWNBOT_DISCORD_CHANNEL_ID" = "" then .error .missingDiscordChannelID
       else if env "SPAWNBOT_IRC_CHANNEL" = "" then .error .missingIRCChannel
       else .ok
        { ircServer := env "SPAWNBOT_IRC_SERVER"
          ircPort := p
          ircNick := if env "SPAWNBOT_IRC_NICK" = "" then "SpawnBot"
            else env "SPAWNBOT_IRC_NICK"
          ircUser := if env "SPAWNBOT_IRC_USER" = "" then "spawnbot"
            else env "SPAWNBOT_IRC_USER"
          ircName := if env "SPAWNBOT_IRC_NAME" = "" then "SpawnBot Go IRC Bot"
            else env "SPAWNBOT_IRC_NAME"
          qnetAuthPass := if env "SPAWNBOT_QNET_AUTH" = "" then env "QNET_AUTH"
            else env "SPAWNBOT_QNET_AUTH"
          discordToken := if env "SPAWNBOT_DISCORD_TOKEN" = "" then env "SPAWNBOT_TOKEN"
            else env "SPAWNBOT_DISCORD_TOKEN"
          bridgeDiscordChannelID := env "SPAWNBOT_DISCORD_CHANNEL_ID"
          bridgeIRCChannel := env "SPAWNBOT_IRC_CHANNEL" }) := by
  unfold LoadConfig
  rw [if_neg hs, hp]

/-- C8 (amended): a missing required environment variable — the IRC
server, the QuakeNet credential (both variants), the Discord token
(both variants), the Discord channel ID or the IRC channel — or a
malformed IRC port (non-numeric or outside the int64 range) is fatal at
startup: the process exits non-zero before any network connection is
attempted.  The Discord channel ID, however, is only checked for
non-emptiness at startup; a malformed value passes `LoadConfig` and
reaches network startup unvalidated. -/
theorem config_errors_fatal_at_startup :
    (∀ env, env "SPAWNBOT_IRC_SERVER" = "" →
      mainStartup env = .exitConfigError .missingIRCServer) ∧
    (∀ env, env "SPAWNBOT_IRC_SERVER" ≠ "" → env "SPAWNBOT_IRC_PORT" ≠ "" →
      goAtoi (env "SPAWNBOT_IRC_PORT") = none →
      mainStartup env = .exitConfigError .invalidIRCPort) ∧
    (∀ env, env "SPAWNBOT_IRC_SERVER" ≠ "" →
      (env "SPAWNBOT_IRC_PORT" = "" ∨ goAtoi (env "SPAWNBOT_IRC_PORT") ≠ none) →
      env "SPAWNBOT_QNET_AUTH" = "" → env "QNET_AUTH" = "" →
      mainStartup env = .exitConfigError .missingQNetAuth) ∧
    (∀ env, env "SPAWNBOT_IRC_SERVER" ≠ "" →
      (env "SPAWNBOT_IRC_PORT" = "" ∨ goAtoi (env "SPAWNBOT_IRC_PORT") ≠ none) →
      (env "SPAWNBOT_QNET_AUTH" ≠ "" ∨ env "QNET_AUTH" ≠ "") →
      env "SPAWNBOT_DISCORD_TOKEN" = "" → env "SPAWNBOT_TOKEN" = "" →
      mainStartup env = .exitConfigError .missingDiscordToken) ∧
    (∀ env, env "SPAWNBOT_IRC_SERVER" ≠ "" →
      (env "SPAWNBOT_IRC_PORT" = "" ∨ goAtoi (env "SPAWNBOT_IRC_PORT") ≠ none) →
      (env "SPAWNBOT_QNET_AUTH" ≠ "" ∨ env "QNET_AUTH" ≠ "") →
      (env "SPAWNBOT_DISCORD_TOKEN" ≠ "" ∨ env "SPAWNBOT_TOKEN" ≠ "") →
      env "SPAWNBOT_DISCORD_CHANNEL_ID" = "" →
      mainStartup env = .exitConfigError .missingDiscordChannelID) ∧
    (∀ env, env "SPAWNBOT_IRC_SERVER" ≠ "" →
      (env "SPAWNBOT_IRC_PORT" = "" ∨ goAtoi (env "SPAWNBOT_IRC_PORT") ≠ none) →
      (env "SPAWNBOT_QNET_AUTH" ≠ "" ∨ env "QNET_AUTH" ≠ "") →
      (env "SPAWNBOT_DISCORD_TOKEN" ≠ "" ∨ env "SPAWNBOT_TOKEN" ≠ "") →
      env "SPAWNBOT_DISCORD_CHANNEL_ID" ≠ "" →
      env "SPAWNBOT_IRC_CHANNEL" = "" →
      mainStartup env = .exitConfigError .missingIRCChannel) ∧
    (∀ env, env "SPAWNBOT_IRC_SERVER" ≠ "" →
      (env "SPAWNBOT_IRC_PORT" = "" ∨ goAtoi (env "SPAWNBOT_IRC_PORT") ≠ none) →
      (env "SPAWNBOT_QNET_AUTH" ≠ "" ∨ env "QNET_AUTH" ≠ "") →
      (env "SPAWNBOT_DISCORD_TOKEN" ≠ "" ∨ env "SPAWNBOT_TOKEN" ≠ "") →
      env "SPAWNBOT_DISCORD_CHANNEL_ID" ≠ "" →
      env "SPAWNBOT_IRC_CHANNEL" ≠ "" →
      ∃ cfg, mainStartup env = .networkStartup cfg ∧
        cfg.bridgeDiscordChannelID = env "SPAWNBOT_DISCORD_CHANNEL_ID") := by
  refine ⟨fun env hs => ?_, fun env hs hp ha => ?_,
    fun env hs hpok hq1 hq2 => ?_, fun env hs hpok hq ht1 ht2 => ?_,
    fun env hs hpok hq ht hc => ?_, fun env hs hpok hq ht hc hi => ?_,
    fun env hs hpok hq ht hc hi => ?_⟩
  · simp [mainStartup, LoadConfig, hs]
  · simp [mainStartup, LoadConfig, hs, hp, ha]
  · obtain ⟨p, hp⟩ := port_determined env hpok
    unfold mainStartup
    rw [LoadConfig_after_port env p hs hp]
    simp [hq1, hq2]
  · obtain ⟨p, hp⟩ := port_determined env hpok
    unfold mainStartup
    rw [LoadConfig_after_port env p hs hp]
    simp [ifEmpty_fallback_ne _ _ hq, ht1, ht2]
  · obtain ⟨p, hp⟩ := port_determined env hpok
    unfold mainStartup
    rw [LoadConfig_after_port env p hs hp]
    simp [ifEmpty_fallback_ne _ _ hq, ifEmpty_fallback_ne _ _ ht, hc]
  · obtain ⟨p, hp⟩ := port_determined env hpok
    unfold mainStartup
    rw [LoadConfig_after_port env p hs hp]
    simp [ifEmpty_fallback_ne _ _ hq, ifEmpty_fallback_ne _ _ ht, hc, hi]
  · obtain ⟨p, hp⟩ := port_determined env hpok
    refine ⟨⟨env "SPAWNBOT_IRC_SERVER", p,
      (if env "SPAWNBOT_IRC_NICK" = "" then "SpawnBot" else env "SPAWNBOT_IRC_NICK"),
      (if env "SPAWNBOT_IRC_USER" = "" then "spawnbot" else env "SPAWNBOT_IRC_USER"),
      (if env "SPAWNBOT_IRC_NAME" = "" then "SpawnBot Go IRC Bot"
        else env "SPAWNBOT_IRC_NAME"),
      (if env "SPAWNBOT_QNET_AUTH" = "" then env "QNET_AUTH"
        else env "SPAWNBOT_QNET_AUTH"),
      (if env "SPAWNBOT_DISCORD_TOKEN" = "" then env "SPAWNBOT_TOKEN"
        else env "SPAWNBOT_DISCORD_TOKEN"),
      env "SPAWNBOT_DISCORD_CHANNEL_ID", env "SPAWNBOT_IRC_CHANNEL"⟩, ?_, rfl⟩
    unfold mainStartup
    rw [LoadConfig_after_port env p hs hp]
    simp [ifEmpty_fallback_ne _ _ hq, ifEmpty_fallback_ne _ _ ht, hc, hi]

/-- Witness for C8 (amended): an empty environment is fatal with the
missing-server error; a non-numeric port and an out-of-int64-range port
are each fatal with the invalid-port error; an environment missing only
the QuakeNet credential is fatal with the missing-auth error; and
`badChanEnv` reaches network startup with its unparseable channel ID. -/
theorem config_errors_fatal_at_startup_witness :
    mainStartup (fun _ => "") = .exitConfigError .missingIRCServer ∧
    mainStartup (fun v => if v = "SPAWNBOT_IRC_SERVER" then "irc.quakenet.org"
      else if v = "SPAWNBOT_IRC_PORT" then "sixsixsixseven" else "") =
      .exitConfigError .invalidIRCPort ∧
    mainStartup (fun v => if v = "SPAWNBOT_IRC_SERVER" then "irc.quakenet.org"
      else if v = "SPAWNBOT_IRC_PORT" then "99999999999999999999" else "") =
      .exitConfigError .invalidIRCPort ∧
    mainStartup (fun v => if v = "SPAWNBOT_IRC_SERVER" then "irc.quakenet.org" else "") =
      .exitConfigError .missingQNetAuth ∧
    ∃ cfg, mainStartup badChanEnv = .networkStartup cfg ∧
      cfg.bridgeDiscordChannelID = badChanEnv "SPAWNBOT_DISCORD_CHANNEL_ID" :=
  ⟨config_errors_fatal_at_startup.1 (fun _ => "") rfl,
   config_errors_fatal_at_startup.2.1
     (fun v => if v = "SPAWNBOT_IRC_SERVER" then "irc.quakenet.org"
       else if v = "SPAWNBOT_IRC_PORT" then "sixsixsixseven" else "")
     (by decide) (by decide) (by decide),
   config_errors_fatal_at_startup.2.1
     (fun v => if v = "SPAWNBOT_IRC_SERVER" then "irc.quakenet.org"
       else if v = "SPAWNBOT_IRC_PORT" then "99999999999999999999" else "")
     (by decide) (by decide) (by decide),
   config_errors_fatal_at_startup.2.2.1
     (fun v => if v = "SPAWNBOT_IRC_SERVER" then "irc.quakenet.org" else "")
     (by decide) (Or.inl (by decide)) (by decide) (by decide),
   config_errors_fatal_at_startup.2.2.2.2.2.2 badChanEnv (by decide)
     (Or.inl (by decide)) (Or.inl (by decide)) (Or.inl (by decide))
     (by decide) (by decide)⟩

end Spawnbot

